import Mathlib

/-!
Shallow embedding of the ScamShield risk-scoring core (server.js):
the `ScamDetectorAI` analyzers, the composite scorer, the flag generator,
and the `/api/v1/analyze` deduplication layer.

Conventions of the embedding:
* JavaScript numbers are modelled as exact rationals (`ℚ`); every numeric
  literal appearing in the source (0.3, 0.25, ...) is exactly representable.
* JavaScript regular expressions are modelled by a small regular-expression
  engine (Brzozowski derivatives) over `List Char`; each source regex is
  transcribed token by token.  The `i` flag is modelled by lower-casing the
  subject and using lower-case literals (`jsToLower`, ASCII case fold).
  `.` excludes the JS line terminators.  `/g` counting (`match(...).length`)
  is modelled by left-to-right non-overlapping scans.
* `await`ed external effects (Redis get/setex, the OpenAI call, MongoDB)
  are passed in explicitly as oracle arguments (`Except`/outcome values), so
  every function is a total, executable Lean function of its inputs.
* JS truthiness on the values that occur here: a number is falsy iff it is 0,
  a string is falsy iff it is empty, `undefined`/`null` are falsy; this is
  captured by the `jsNumOr` / `jsOrQ` / `jsOrStr` helpers.
-/

/-! ## JS truthiness helpers -/

/-- JS `x || d` for a number `x` (falsy iff `x = 0`; `NaN` is not modelled). -/
def jsNumOr (x d : ℚ) : ℚ := if x = 0 then d else x

/-- JS `x || d` where `x` is a possibly-absent number field of a parsed object. -/
def jsOrQ (x : Option ℚ) (d : ℚ) : ℚ :=
  match x with
  | some v => if v = 0 then d else v
  | none => d

/-- JS `x || d` where `x` is a possibly-absent string field (empty is falsy). -/
def jsOrStr (x : Option String) (d : String) : String :=
  match x with
  | some v => if v = "" then d else v
  | none => d

/-- `Math.min(a, b)` on exact rationals, written with an explicit
comparison so that concrete values reduce inside `decide`. -/
def jsMin (a b : ℚ) : ℚ := if a ≤ b then a else b

/-- Clamp a rational to the interval `[0,1]` (used to state the spec's
"clamped to [0,1]"; the source itself only applies `Math.min(·, 1)`). -/
def clamp01 (x : ℚ) : ℚ := if x ≤ 0 then 0 else if 1 ≤ x then 1 else x

/-- JS `String.prototype.toLowerCase()` (ASCII case fold, like the `i` flag
canonicalisation on the ASCII literals used by the source regexes), defined
by structural recursion so concrete strings reduce inside `decide`. -/
def jsToLower (s : String) : String := String.mk (s.data.map Char.toLower)

/-! ## Regular-expression engine (Brzozowski derivatives) -/

/-- Regular expressions over characters, with character-class predicates. -/
inductive RE where
  | emp : RE
  | eps : RE
  | pred (p : Char → Bool) : RE
  | cat (a b : RE) : RE
  | alt (a b : RE) : RE
  | star (r : RE) : RE

/-- Does the regex accept the empty string? -/
def RE.nullable : RE → Bool
  | .emp => false
  | .eps => true
  | .pred _ => false
  | .cat a b => a.nullable && b.nullable
  | .alt a b => a.nullable || b.nullable
  | .star _ => true

/-- Brzozowski derivative with respect to one character. -/
def RE.deriv : RE → Char → RE
  | .emp, _ => .emp
  | .eps, _ => .emp
  | .pred p, c => if p c then .eps else .emp
  | .cat a b, c =>
      if a.nullable then .alt (.cat (a.deriv c) b) (b.deriv c)
      else .cat (a.deriv c) b
  | .alt a b, c => .alt (a.deriv c) (b.deriv c)
  | .star r, c => .cat (r.deriv c) (.star r)

/-- Anchored match of the whole character list. -/
def reMatch (r : RE) (cs : List Char) : Bool :=
  (cs.foldl RE.deriv r).nullable

/-- `star` of "any character at all" (used to un-anchor a search, like the
implicit positions a JS regex may start and end a match at). -/
def anyStar : RE := .star (.pred (fun _ => true))

/-- JS `re.test(s)` for a regex with neither `^` nor `$`. -/
def reTest (r : RE) (s : String) : Bool :=
  reMatch (.cat anyStar (.cat r anyStar)) s.data

/-- JS `re.test(s)` for a regex of the form `/^.../`. -/
def reTestAtStart (r : RE) (s : String) : Bool :=
  reMatch (.cat r anyStar) s.data

/-- JS `re.test(s)` for a regex of the form `/...$/`. -/
def reTestAtEnd (r : RE) (s : String) : Bool :=
  reMatch (.cat anyStar r) s.data

/-- A literal string as a regex. -/
def litR (s : String) : RE :=
  s.data.foldr (fun c r => .cat (.pred (fun x => x = c)) r) .eps

/-- Alternation of a list of regexes (source `a|b|c`). -/
def altOf : List RE → RE
  | [] => .emp
  | r :: rs => rs.foldl .alt r

/-- Concatenation of a list of regexes. -/
def seqR (l : List RE) : RE := l.foldr .cat .eps

/-- JS `.` without the `s` flag: any character except a line terminator. -/
def dotC : RE :=
  .pred (fun c => !(c = '\n' || c = '\r' || c.toNat = 0x2028 || c.toNat = 0x2029))

/-- `.*` in the source regexes. -/
def dotStar : RE := .star dotC

/-- JS `\d`. -/
def digitC : RE := .pred Char.isDigit

/-- `r?`. -/
def optR (r : RE) : RE := .alt r .eps

/-! ## Left-to-right `/g` counting scanners -/

/-- Strip a literal from the front of a character list, returning the rest. -/
def stripLit : List Char → List Char → Option (List Char)
  | [], cs => some cs
  | _, [] => none
  | l :: ls, c :: cs => if c = l then stripLit ls cs else none

/-- One step of counting matches of `/a|b|.../g`: at each position try the
alternatives in source order (JS alternation preference); on a match skip
past it (non-overlapping, `lastIndex` advances), otherwise move one char.
`fuel` starts at the list length and bounds the recursion. -/
def altScan (alts : List String) : Nat → List Char → Nat
  | 0, _ => 0
  | _ + 1, [] => 0
  | fuel + 1, c :: rest =>
      match alts.findSome? (fun alt => stripLit alt.data (c :: rest)) with
      | some remainder => 1 + altScan alts fuel remainder
      | none => altScan alts fuel rest

/-- `(s.match(/a|b|.../g) || []).length` for non-empty literal alternatives. -/
def countAlts (alts : List String) (s : String) : Nat :=
  altScan alts s.data.length s.data

/-- JS `\w` (word character): `[A-Za-z0-9_]`. -/
def isWordChar (c : Char) : Bool := c.isAlphanum || c = '_'

/-- JS `\s` (whitespace class). -/
def jsSpace (c : Char) : Bool :=
  c = ' ' || c = '\t' || c = '\n' || c = '\r' || c = '\x0b' || c = '\x0c' ||
  c.toNat = 0xa0 || c.toNat = 0x1680 ||
  (0x2000 ≤ c.toNat && c.toNat ≤ 0x200a) ||
  c.toNat = 0x2028 || c.toNat = 0x2029 || c.toNat = 0x202f ||
  c.toNat = 0x205f || c.toNat = 0x3000 || c.toNat = 0xfeff

/-- A grammar-error pattern `\b(g₁)\s+(g₂)\s+...\b`: a nonempty sequence of
alternation groups of word-character literals, separated by `\s+`, with word
boundaries at both ends (the shape of every regex in `detectGrammarIssues`). -/
abbrev GramPat := List (List String)

/-- Word-boundary check after a match whose last character is a word
character: the next character must be absent or a non-word character. -/
def bAfterOk : List Char → Bool
  | [] => true
  | c :: _ => !isWordChar c

/-- Match the groups of a `GramPat` at the head of `cs` (the leading `\b` has
already been checked by the caller).  Alternatives are tried in source order
with backtracking; `\s+` is taken as the maximal whitespace run, which is
faithful here because every following alternative starts with a non-space
character.  Returns the last consumed character and the remainder. -/
def matchGroups : GramPat → List Char → Option (Char × List Char)
  | [], _ => none
  | [g] , cs =>
      g.findSome? (fun alt =>
        (stripLit alt.data cs).bind (fun rest =>
          if bAfterOk rest then
            (alt.data.getLast?).map (fun lc => (lc, rest))
          else none))
  | g :: g2 :: gs, cs =>
      g.findSome? (fun alt =>
        (stripLit alt.data cs).bind (fun rest =>
          let run := rest.takeWhile jsSpace
          if run.length = 0 then none
          else matchGroups (g2 :: gs) (rest.dropWhile jsSpace)))

/-- Count `/g` matches of a `GramPat`; `prev` is the character just before
the current position (for the leading `\b`: every pattern starts with a word
character, so the boundary holds iff `prev` is absent or non-word). -/
def gramScan (pat : GramPat) : Nat → Option Char → List Char → Nat
  | 0, _, _ => 0
  | _ + 1, _, [] => 0
  | fuel + 1, prev, c :: rest =>
      let bOk : Bool := match prev with
        | none => true
        | some p => !isWordChar p
      match (if bOk then matchGroups pat (c :: rest) else none) with
      | some (lc, remainder) => 1 + gramScan pat fuel (some lc) remainder
      | none => gramScan pat fuel (some c) rest

/-- `(text.match(pat) || []).length` for one grammar-error regex. -/
def countGramPat (pat : GramPat) (s : String) : Nat :=
  gramScan pat s.data.length none s.data

/-! ## Data model -/

/-- The job posting sent to the analyzer (`job` in the request body).
`title` and `description` are validated as non-empty strings by the endpoint;
the other fields may be absent (`undefined`). -/
structure JobPosting where
  title : String
  description : String
  company : Option String
  location : Option String
  salary : Option String
  url : Option String
  site : Option String
  id : Option String
deriving DecidableEq

/-- Result of `analyzeJobText`. -/
structure TextAnalysis where
  score : ℚ
  matchedPatterns : List String
  urgencyScore : ℚ
  grammarScore : ℚ
deriving DecidableEq

/-- Result of `verifyCompany`.  `isGeneric` and `error` are optional fields:
the empty-name early return and the catch branch do not set `isGeneric`, and
only the catch branch sets `error`. -/
structure CompanyAnalysis where
  verified : Bool
  confidence : ℚ
  isGeneric : Option Bool
  error : Option String
deriving DecidableEq

/-- Result of `analyzeSalary` (`reason` only on the unrealistic branches). -/
structure SalaryAnalysis where
  realistic : Bool
  confidence : ℚ
  reason : Option String
deriving DecidableEq

/-- Result of `performAIAnalysis` (`model` only on the success branch,
`error` only on the catch branch). -/
structure AIAnalysis where
  riskScore : ℚ
  confidence : ℚ
  reasoning : String
  model : Option String
  error : Option String
deriving DecidableEq

/-- The `aiAnalysis` summary embedded in the final result. -/
structure AISummary where
  textScore : ℚ
  companyVerified : Bool
  salaryRealistic : Bool
  patternMatches : List String
deriving DecidableEq

/-- The `AnalysisResult` object built by `analyzeJob` (happy path). -/
structure AnalysisResult where
  risk : ℚ
  confidence : ℚ
  flags : List String
  aiAnalysis : AISummary
  jobTitle : String
  company : Option String
  location : Option String
  salary : Option String
  timestamp : ℕ
deriving DecidableEq

/-- Outcome of the external-classifier interaction, as observed by
`performAIAnalysis`: either some step of the `try` block threw (transport
error, timeout, or `JSON.parse` failure on the completion text), or the
completion text parsed as JSON, in which case the three expected fields may
each be present (with an arbitrary value) or absent. -/
inductive ExtOutcome where
  | failure (msg : String)
  | parsed (riskScore : Option ℚ) (confidence : Option ℚ) (reasoning : Option String)
deriving DecidableEq

/-! ## The analyzers (`ScamDetectorAI`) -/

/-- `this.suspiciousPatterns`, transcribed in source order:
`/work from home.*\$\d{3,4}.*week/i`, `/no experience.*high pay/i`,
`/urgent.*immediate start/i`, `/pay.*training fee/i`,
`/western union.*money transfer/i`, `/package forwarding/i`,
`/mystery shopper/i`, `/envelope stuffing/i`, `/data entry.*\$\d+.*hour/i`,
`/earn.*\$\d+.*day.*guaranteed/i` (the `i` flag is realised by matching the
lower-cased subject against lower-case literals). -/
def suspiciousPatterns : List RE :=
  [ seqR [litR "work from home", dotStar, litR "$", digitC, digitC, digitC,
      optR digitC, dotStar, litR "week"],
    seqR [litR "no experience", dotStar, litR "high pay"],
    seqR [litR "urgent", dotStar, litR "immediate start"],
    seqR [litR "pay", dotStar, litR "training fee"],
    seqR [litR "western union", dotStar, litR "money transfer"],
    litR "package forwarding",
    litR "mystery shopper",
    litR "envelope stuffing",
    seqR [litR "data entry", dotStar, litR "$", digitC, .star digitC,
      dotStar, litR "hour"],
    seqR [litR "earn", dotStar, litR "$", digitC, .star digitC, dotStar,
      litR "day", dotStar, litR "guaranteed"] ]

/-- The urgency vocabulary `/urgent|immediate|asap|today only|limited time/gi`. -/
def urgencyAlts : List String :=
  ["urgent", "immediate", "asap", "today only", "limited time"]

/-- The five grammar-error regexes of `detectGrammarIssues`, in source order. -/
def grammarPats : List GramPat :=
  [ [["recieve", "recive"]],
    [["seperate"]],
    [["loose"]],
    [["your"], ["hired", "selected"]],
    [["its"], ["a"], ["great"]] ]

/-- `detectGrammarIssues(text)`: the summed `/g` match counts of the five
grammar-error regexes. -/
def detectGrammarIssues (text : String) : ℕ :=
  (grammarPats.map (fun p => countGramPat p text)).sum

/-- The accumulation step of the `suspiciousPatterns.forEach` loop:
a match adds `0.3` and pushes the label built from the pattern index. -/
def patStep (fullText : String) (acc : ℚ × List String) (ip : ℕ × RE) :
    ℚ × List String :=
  if reTest ip.2 fullText then
    (acc.1 + 0.3, acc.2 ++ ["Patrón sospechoso " ++ toString (ip.1 + 1)])
  else acc

/-- `analyzeJobText(jobData)`: pattern matches, urgency count, grammar count,
score capped by `Math.min(·, 1)`. -/
def analyzeJobText (title description : String) : TextAnalysis :=
  let fullText := jsToLower (title ++ " " ++ description)
  let base := (suspiciousPatterns.enum).foldl (patStep fullText) (0, [])
  let urgencyMatches := countAlts urgencyAlts fullText
  let s1 := if urgencyMatches > 2 then base.1 + 0.2 else base.1
  let m1 := if urgencyMatches > 2 then
      base.2 ++ ["Urgencia artificial excesiva"] else base.2
  let grammarIssues := detectGrammarIssues fullText
  let s2 := if grammarIssues > 3 then s1 + 0.15 else s1
  let m2 := if grammarIssues > 3 then
      m1 ++ ["Múltiples errores gramaticales"] else m1
  { score := jsMin s2 1
    matchedPatterns := m2
    urgencyScore := (urgencyMatches : ℚ) / 10
    grammarScore := (grammarIssues : ℚ) / 20 }

/-- `isGenericCompanyName(name)`: `genericPatterns.some(p => p.test(name))`,
patterns in source order (`/hiring now/i`, `/work from home/i`,
`/remote work/i`, `/online jobs/i`, `/employment agency/i`, `/staffing/i`,
`/^job/i`, `/^work/i`). -/
def isGenericCompanyName (name : String) : Bool :=
  let n := jsToLower name
  reTest (litR "hiring now") n ||
  reTest (litR "work from home") n ||
  reTest (litR "remote work") n ||
  reTest (litR "online jobs") n ||
  reTest (litR "employment agency") n ||
  reTest (litR "staffing") n ||
  reTestAtStart (litR "job") n ||
  reTestAtStart (litR "work") n

/-- `this.legitimateCompanyIndicators.some(p => p.test(name))`:
`/\.com$/` (case-sensitive, no `i` flag), `/inc\.|llc|ltd\.|corp\./i`,
`/founded in \d{4}/i`, `/headquarters/i`, `/employees/i`. -/
def hasLegitIndicators (name : String) : Bool :=
  reTestAtEnd (litR ".com") name ||
  reTest (altOf [litR "inc.", litR "llc", litR "ltd.", litR "corp."])
    (jsToLower name) ||
  reTest (seqR [litR "founded in ", digitC, digitC, digitC, digitC])
    (jsToLower name) ||
  reTest (litR "headquarters") (jsToLower name) ||
  reTest (litR "employees") (jsToLower name)

/-- The fresh verification verdict computed on a cache miss. -/
def computeVerification (name : String) : CompanyAnalysis :=
  let isGen := isGenericCompanyName name
  let hasLegit := hasLegitIndicators name
  { verified := !isGen && hasLegit
    confidence := if hasLegit then 0.7 else 0.3
    isGeneric := some isGen
    error := none }

/-- `verifyCompany(companyName)`.  The Redis interactions are oracles:
`cacheGet` is the outcome of `redisClient.get` (`.error` = the call threw;
`.ok (some v)` = a cached verdict was found; the `JSON.parse` of a value
written by this function is its identity), `cacheSet` the outcome of
`redisClient.setex`.  The `catch` block wraps both accesses and the
computation, so either failing yields `{verified: false, confidence: 0,
error}` — the computed verdict is discarded on a `setex` failure. -/
def verifyCompany (companyName : Option String)
    (cacheGet : Except String (Option CompanyAnalysis))
    (cacheSet : Except String Unit) : CompanyAnalysis :=
  match companyName with
  | none => { verified := false, confidence := 0, isGeneric := none, error := none }
  | some name =>
    if name = "" then
      { verified := false, confidence := 0, isGeneric := none, error := none }
    else
      match cacheGet with
      | .error e => { verified := false, confidence := 0, isGeneric := none, error := some e }
      | .ok (some cached) => cached
      | .ok none =>
          let result := computeVerification name
          match cacheSet with
          | .error e =>
              { verified := false, confidence := 0, isGeneric := none, error := some e }
          | .ok _ => result

/-- Seniority tiers of `this.salaryRanges` / `determineJobLevel`. -/
inductive JobLevel where
  | entry | mid | senior | executive
deriving DecidableEq

/-- `this.salaryRanges` (min, max). -/
def salaryRanges : JobLevel → ℕ × ℕ
  | .entry => (25000, 45000)
  | .mid => (45000, 85000)
  | .senior => (75000, 150000)
  | .executive => (120000, 300000)

/-- `/senior|lead|principal|director|manager/i.test(titleLower)`. -/
def seniorKw (t : String) : Bool :=
  reTest (altOf [litR "senior", litR "lead", litR "principal",
    litR "director", litR "manager"]) t

/-- `/junior|entry|intern|assistant/i.test(titleLower)`. -/
def entryKw (t : String) : Bool :=
  reTest (altOf [litR "junior", litR "entry", litR "intern",
    litR "assistant"]) t

/-- `/executive|vp|president|ceo|cto|cfo/i.test(titleLower)`. -/
def execKw (t : String) : Bool :=
  reTest (altOf [litR "executive", litR "vp", litR "president",
    litR "ceo", litR "cto", litR "cfo"]) t

/-- `determineJobLevel(title)`: the keyword sets are tried in source order
(senior, then entry-level, then executive), defaulting to mid-level. -/
def determineJobLevel (title : String) : JobLevel :=
  let titleLower := jsToLower title
  if seniorKw titleLower then .senior
  else if entryKw titleLower then .entry
  else if execKw titleLower then .executive
  else .mid

/-- The maximal digit runs of a string: `s.match(/\d+/g)` (empty list when
the JS value would be `null`). -/
def digitRunsAux : ℕ → List Char → List String
  | 0, _ => []
  | _ + 1, [] => []
  | fuel + 1, c :: rest =>
      if c.isDigit then
        String.mk ((c :: rest).takeWhile Char.isDigit)
          :: digitRunsAux fuel ((c :: rest).dropWhile Char.isDigit)
      else digitRunsAux fuel rest

/-- `salaryText.match(/\d+/g)`, as the list of maximal digit runs. -/
def digitRuns (s : String) : List String := digitRunsAux s.data.length s.data

/-- `parseInt` of a pure digit run. -/
def parseNatDigits (s : String) : ℕ :=
  s.data.foldl (fun a c => a * 10 + (c.toNat - 48)) 0

/-- `Math.max(...)` over a list of naturals (the source list is non-empty). -/
def maxNat (l : List ℕ) : ℕ := l.foldl max 0

/-- `/hour|hr|\/h/i.test(salaryText)`. -/
def isHourlyTest (s : String) : Bool :=
  reTest (altOf [litR "hour", litR "hr", litR "/h"]) (jsToLower s)

/-- `analyzeSalary(salaryText, jobTitle)`.  `!salaryText` is JS-falsy for an
absent *or empty* salary string.  The `try` block cannot throw for string
inputs, so the `catch` branch is unreachable in this embedding. -/
def analyzeSalary (salaryText : Option String) (jobTitle : String) :
    SalaryAnalysis :=
  match salaryText with
  | none => { realistic := true, confidence := 0.5, reason := none }
  | some s =>
    if s = "" then { realistic := true, confidence := 0.5, reason := none }
    else
      let numbers := digitRuns s
      if numbers = [] then { realistic := true, confidence := 0.3, reason := none }
      else
        let maxSalary := maxNat (numbers.map parseNatDigits)
        let jobLevel := determineJobLevel jobTitle
        let expectedRange := salaryRanges jobLevel
        let isHourly := isHourlyTest s
        if isHourly && decide (maxSalary > 100) && decide (jobLevel = .entry) then
          { realistic := false, confidence := 0.9,
            reason := some "Salario por hora irrealista" }
        else if !isHourly && decide (maxSalary > expectedRange.2 * 2) then
          { realistic := false, confidence := 0.8,
            reason := some "Salario anual excesivo" }
        else { realistic := true, confidence := 0.7, reason := none }

/-- `performAIAnalysis(jobData)`.  The posting only feeds the prompt, so the
result is a function of the interaction outcome alone.  On the success path
the parsed fields are read with JS `||` defaults
(`response.riskScore || 0`, `response.confidence || 0.5`,
`response.reasoning || ""`); any thrown error is caught and converted into
the fixed degraded record. -/
def performAIAnalysis (ext : ExtOutcome) : AIAnalysis :=
  match ext with
  | .failure msg =>
      { riskScore := 0, confidence := 0, reasoning := "Error en análisis IA",
        model := none, error := some msg }
  | .parsed riskScore confidence reasoning =>
      { riskScore := jsOrQ riskScore 0
        confidence := jsOrQ confidence 0.5
        reasoning := jsOrStr reasoning ""
        model := some "gpt-3.5-turbo"
        error := none }

/-- `calculateCompositeRisk({...})`: weighted sum with flat penalties for the
boolean verdicts, capped by `Math.min(totalRisk, 1)` (there is no lower
clamp in the source). -/
def calculateCompositeRisk (textAnalysis : TextAnalysis)
    (companyAnalysis : CompanyAnalysis) (salaryAnalysis : SalaryAnalysis)
    (aiAnalysis : AIAnalysis) : ℚ :=
  let totalRisk0 := textAnalysis.score * 0.3
  let totalRisk1 := if companyAnalysis.verified then totalRisk0
    else totalRisk0 + 0.4 * 0.25
  let totalRisk2 := if salaryAnalysis.realistic then totalRisk1
    else totalRisk1 + 0.6 * 0.2
  let totalRisk3 := totalRisk2 + jsNumOr aiAnalysis.riskScore 0 * 0.25
  jsMin totalRisk3 1

/-- `generateFlags({...})`: evidence strings in analyzer order. -/
def generateFlags (textAnalysis : TextAnalysis)
    (companyAnalysis : CompanyAnalysis) (salaryAnalysis : SalaryAnalysis)
    (aiAnalysis : AIAnalysis) : List String :=
  (if textAnalysis.matchedPatterns.length > 0 then
    textAnalysis.matchedPatterns else []) ++
  (if companyAnalysis.isGeneric = some true then
    ["Nombre de empresa genérico o sospechoso"] else []) ++
  (if !companyAnalysis.verified then
    ["Empresa no verificada en bases de datos"] else []) ++
  (if !salaryAnalysis.realistic then
    ["Salario irrealista: " ++ jsOrStr salaryAnalysis.reason "fuera de rango esperado"]
   else []) ++
  (if aiAnalysis.reasoning ≠ "" then
    ["IA: " ++ aiAnalysis.reasoning] else [])

/-- `analyzeJob(jobData)` (the risk orchestrator).  The four sub-analyses
are independent (`Promise.all` joins them), so the concurrent fan-out is a
pure composition; the external effects are the explicit oracle arguments,
and `Date.now()` is `now`.  The `catch` branch of the source is a guard
against defects and is unreachable for the total functions embedded here. -/
def analyzeJob (jobData : JobPosting)
    (cacheGet : Except String (Option CompanyAnalysis))
    (cacheSet : Except String Unit) (ext : ExtOutcome) (now : ℕ) :
    AnalysisResult :=
  let textAnalysis := analyzeJobText jobData.title jobData.description
  let companyAnalysis := verifyCompany jobData.company cacheGet cacheSet
  let salaryAnalysis := analyzeSalary jobData.salary jobData.title
  let aiAnalysis := performAIAnalysis ext
  let riskScore := calculateCompositeRisk textAnalysis companyAnalysis
    salaryAnalysis aiAnalysis
  let flags := generateFlags textAnalysis companyAnalysis salaryAnalysis
    aiAnalysis
  { risk := riskScore
    confidence := jsNumOr aiAnalysis.confidence 0.8
    flags := flags
    aiAnalysis :=
      { textScore := textAnalysis.score
        companyVerified := companyAnalysis.verified
        salaryRealistic := salaryAnalysis.realistic
        patternMatches := textAnalysis.matchedPatterns }
    jobTitle := jobData.title
    company := jobData.company
    location := jobData.location
    salary := jobData.salary
    timestamp := now }

/-! ## The deduplication layer (`POST /api/v1/analyze`) -/

/-- The base64 alphabet. -/
def b64Alphabet : List Char :=
  "ABCDEFGHIJKLMNOPQRSTUVWXYZabcdefghijklmnopqrstuvwxyz0123456789+/".data

/-- The base64 digit for a 6-bit value. -/
def b64Char (n : ℕ) : Char := b64Alphabet.getD n 'A'

/-- Standard base64 of a byte list (3-byte groups, `=` padding), as produced
by `Buffer.toString("base64")`. -/
def b64Chunks : List ℕ → String
  | [] => ""
  | [a] =>
      let w := a * 65536
      String.mk [b64Char (w / 262144 % 64), b64Char (w / 4096 % 64)] ++ "=="
  | [a, b] =>
      let w := a * 65536 + b * 256
      String.mk [b64Char (w / 262144 % 64), b64Char (w / 4096 % 64),
        b64Char (w / 64 % 64)] ++ "="
  | a :: b :: c :: rest =>
      let w := a * 65536 + b * 256 + c
      String.mk [b64Char (w / 262144 % 64), b64Char (w / 4096 % 64),
        b64Char (w / 64 % 64), b64Char (w % 64)] ++ b64Chunks rest

/-- `Buffer.from(s).toString("base64")` (UTF-8 bytes). -/
def jsBase64 (s : String) : String :=
  b64Chunks (s.toUTF8.toList.map UInt8.toNat)

/-- JS string concatenation `a + b` where `b` may be `undefined`
(`"x" + undefined` is `"xundefined"`). -/
def jsStrConcatOpt (a : String) (b : Option String) : String :=
  a ++ (match b with | some s => s | none => "undefined")

/-- `job.id || Buffer.from(job.title + job.company).toString("base64")`. -/
def fingerprint (job : JobPosting) : String :=
  match job.id with
  | some i => if i = "" then jsBase64 (jsStrConcatOpt job.title job.company) else i
  | none => jsBase64 (jsStrConcatOpt job.title job.company)

/-- A persisted `JobAnalysis` document, with the fields of the Mongoose
schema (the spread `...job` only keeps the fields the schema declares; the
Mongo-internal `_id`/`__v` bookkeeping fields are not modelled). -/
structure StoredAnalysis where
  jobId : String
  title : Option String
  company : Option String
  location : Option String
  description : Option String
  salary : Option String
  url : Option String
  site : Option String
  riskScore : ℚ
  confidence : ℚ
  flags : List String
  aiAnalysis : AISummary
  timestamp : ℕ
  scamReports : ℕ
  falsePositives : ℕ
deriving DecidableEq

/-- The document written on a fresh analysis:
`new JobAnalysis({jobId, ...job, riskScore: analysis.risk, confidence,
flags, aiAnalysis}).save()`; `timestamp` and `userReports` take their
schema defaults (`Date.now`, zero counters). -/
def mkStored (jobId : String) (job : JobPosting) (a : AnalysisResult)
    (now : ℕ) : StoredAnalysis :=
  { jobId := jobId
    title := some job.title
    company := job.company
    location := job.location
    description := some job.description
    salary := job.salary
    url := job.url
    site := job.site
    riskScore := a.risk
    confidence := a.confidence
    flags := a.flags
    aiAnalysis := a.aiAnalysis
    timestamp := now
    scamReports := 0
    falsePositives := 0 }

/-- Primitive JSON values occurring in the analyze response (numbers,
strings, booleans, and the string arrays used for flag lists). -/
inductive JAtom where
  | jnum (q : ℚ) : JAtom
  | jstr (s : String) : JAtom
  | jbool (b : Bool) : JAtom
  | jstrArr (xs : List String) : JAtom
deriving DecidableEq

/-- A top-level field value of the analyze response: a primitive, or a flat
sub-object of primitives (`aiAnalysis`, `userReports`). -/
inductive JTop where
  | atom (a : JAtom) : JTop
  | obj (fields : List (String × JAtom)) : JTop
deriving DecidableEq

/-- The JSON object `res.json(...)` serialises, as its ordered field list
(`JSON.stringify` preserves insertion order, so two responses are
byte-identical iff these field lists are equal). -/
abbrev JDoc := List (String × JTop)

/-- A JSON object field that is omitted when the JS value is `undefined`. -/
def optField (k : String) : Option String → JDoc
  | some s => [(k, .atom (.jstr s))]
  | none => []

/-- The `aiAnalysis` summary as JSON. -/
def aiSummaryToJObj (s : AISummary) : JTop :=
  .obj [("textScore", .jnum s.textScore),
    ("companyVerified", .jbool s.companyVerified),
    ("salaryRealistic", .jbool s.salaryRealistic),
    ("patternMatches", .jstrArr s.patternMatches)]

/-- The JSON of a freshly computed `AnalysisResult` (fields in the order the
object literal in `analyzeJob` constructs them; `undefined` fields dropped). -/
def analysisToJDoc (a : AnalysisResult) : JDoc :=
  [("risk", .atom (.jnum a.risk)),
    ("confidence", .atom (.jnum a.confidence)),
    ("flags", .atom (.jstrArr a.flags)),
    ("aiAnalysis", aiSummaryToJObj a.aiAnalysis),
    ("jobTitle", .atom (.jstr a.jobTitle))] ++
    optField "company" a.company ++
    optField "location" a.location ++
    optField "salary" a.salary ++
    [("timestamp", .atom (.jnum a.timestamp))]

/-- The JSON of a stored document returned on a deduplication hit
(`existingAnalysis.toObject()`, fields in schema order). -/
def storedToJDoc (d : StoredAnalysis) : JDoc :=
  [("jobId", .atom (.jstr d.jobId))] ++
    optField "title" d.title ++
    optField "company" d.company ++
    optField "location" d.location ++
    optField "description" d.description ++
    optField "salary" d.salary ++
    optField "url" d.url ++
    optField "site" d.site ++
    [("riskScore", .atom (.jnum d.riskScore)),
     ("confidence", .atom (.jnum d.confidence)),
     ("flags", .atom (.jstrArr d.flags)),
     ("aiAnalysis", aiSummaryToJObj d.aiAnalysis),
     ("timestamp", .atom (.jnum d.timestamp)),
     ("userReports", .obj [("scamReports", .jnum d.scamReports),
       ("falsePositives", .jnum d.falsePositives)])]

/-- `JobAnalysis.findOne({jobId, timestamp: {$gte: now − 24h}})`: the first
stored document (insertion order) with this fingerprint whose timestamp is
within the last 24 hours (86400000 ms). -/
def findRecent (store : List StoredAnalysis) (jobId : String) (now : ℕ) :
    Option StoredAnalysis :=
  store.find? (fun d => d.jobId == jobId && decide (now - 86400000 ≤ d.timestamp))

/-- The `POST /api/v1/analyze` handler after authentication and usage
bookkeeping: validate the posting, derive the fingerprint, return a stored
recent analysis verbatim if one exists, otherwise run the orchestrator and
persist the new document.  Returns the JSON response, the updated store, and
whether the orchestrator ran; `none` models the 400 rejection of an
incomplete posting. -/
def handleAnalyze (job : JobPosting) (store : List StoredAnalysis)
    (cacheGet : Except String (Option CompanyAnalysis))
    (cacheSet : Except String Unit) (ext : ExtOutcome) (now : ℕ) :
    Option (JDoc × List StoredAnalysis × Bool) :=
  if job.title = "" ∨ job.description = "" then none
  else
    let jobId := fingerprint job
    match findRecent store jobId now with
    | some existing => some (storedToJDoc existing, store, false)
    | none =>
        let analysis := analyzeJob job cacheGet cacheSet ext now
        some (analysisToJDoc analysis,
          store ++ [mkStored jobId job analysis now], true)

/-- JS `String.prototype.startsWith(pre)`. -/
def jsStartsWith (pre s : String) : Bool := (stripLit pre.data s.data).isSome

/-- Well-formedness of the external-classifier outcome: any numeric fields
that parsed lie in `[0,1]` (failures are unconstrained). -/
def wfExt : ExtOutcome → Prop
  | .failure _ => True
  | .parsed rs c _ =>
      (∀ q, rs = some q → 0 ≤ q ∧ q ≤ 1) ∧ (∀ q, c = some q → 0 ≤ q ∧ q ≤ 1)

/-- Well-formedness of a Verification Cache read: any cached verdict has its
confidence in `[0,1]` (which every verdict written by `verifyCompany`
satisfies). -/
def wfCacheGet (g : Except String (Option CompanyAnalysis)) : Prop :=
  ∀ v, g = .ok (some v) → 0 ≤ v.confidence ∧ v.confidence ≤ 1

/-! ## Helper lemmas -/

/-- `jsMin` is the lattice `min` on `ℚ`. -/
theorem jsMin_eq_min (a b : ℚ) : jsMin a b = min a b := by
  unfold jsMin
  split
  · exact (min_eq_left (by assumption)).symm
  · exact (min_eq_right (le_of_not_le (by assumption))).symm

/-- `clamp01` is `max 0 (min · 1)`. -/
theorem clamp01_eq (x : ℚ) : clamp01 x = max 0 (min x 1) := by
  unfold clamp01
  rcases le_or_lt x 0 with h0 | h0
  · simp [h0, min_eq_left (h0.trans zero_le_one)]
  · rcases le_or_lt 1 x with h1 | h1
    · simp [not_le.mpr h0, h1, min_eq_right h1, max_eq_right zero_le_one]
    · simp [not_le.mpr h0, not_le.mpr h1, min_eq_left h1.le,
        max_eq_right h0.le]

/-- Closed form of the `suspiciousPatterns.forEach` accumulation: starting
from `(s0, m0)`, the loop adds `0.3` per matching pattern and appends the
labels of the matching patterns in order. -/
theorem patStep_foldl (ft : String) (l : List (ℕ × RE)) (s0 : ℚ)
    (m0 : List String) :
    l.foldl (patStep ft) (s0, m0) =
      (s0 + 0.3 * ((l.filter (fun ip => reTest ip.2 ft)).length : ℚ),
       m0 ++ (l.filter (fun ip => reTest ip.2 ft)).map
         (fun ip => "Patrón sospechoso " ++ toString (ip.1 + 1))) := by
  induction l generalizing s0 m0 with
  | nil => simp
  | cons hd tl ih =>
      simp only [List.foldl_cons, List.filter_cons]
      by_cases h : reTest hd.2 ft
      · simp only [patStep, h, if_true, ih, List.length_cons, List.map_cons]
        refine Prod.ext ?_ ?_
        · push_cast
          ring
        · simp
      · simp [patStep, h, ih]

/-- Filtering an enumerated pattern list by whether the pattern matches
keeps as many entries as filtering the pattern list itself. -/
theorem length_filter_enumFrom (ft : String) (l : List RE) (n : ℕ) :
    ((l.enumFrom n).filter (fun ip => reTest ip.2 ft)).length =
      (l.filter (fun p => reTest p ft)).length := by
  induction l generalizing n with
  | nil => simp
  | cons hd tl ih =>
      simp only [List.enumFrom, List.filter_cons]
      by_cases h : reTest hd ft
      · simp [h, ih]
      · simp [h, ih]

/-! ## C6 — Pattern Analyzer closed form -/

/-- C6: for every title and description, the Pattern Analyzer score equals
0.3 times the number of the fixed ordered scam regexes matching the
case-folded concatenation, plus 0.2 when urgency-word occurrences exceed 2,
plus 0.15 when grammar-error matches exceed 3, the sum clamped to [0,1]
(every increment is non-negative, so the source `Math.min(·, 1)` is that
clamp); `matchedPatterns` lists one index-labelled evidence string per
matching regex, then the urgency flag and the grammar flag exactly when the
respective thresholds are exceeded. -/
theorem C6_analyzeJobText_closed_form (title description : String) :
    analyzeJobText title description =
      { score := min (0.3 *
            (((suspiciousPatterns.filter
              (fun p => reTest p (jsToLower (title ++ " " ++ description)))).length : ℚ)) +
            (if countAlts urgencyAlts (jsToLower (title ++ " " ++ description)) > 2
              then 0.2 else 0) +
            (if detectGrammarIssues (jsToLower (title ++ " " ++ description)) > 3
              then 0.15 else 0)) 1
        matchedPatterns :=
          ((suspiciousPatterns.enum.filter
              (fun ip => reTest ip.2 (jsToLower (title ++ " " ++ description)))).map
            (fun ip => "Patrón sospechoso " ++ toString (ip.1 + 1))) ++
          (if countAlts urgencyAlts (jsToLower (title ++ " " ++ description)) > 2 then
            ["Urgencia artificial excesiva"] else []) ++
          (if detectGrammarIssues (jsToLower (title ++ " " ++ description)) > 3 then
            ["Múltiples errores gramaticales"] else [])
        urgencyScore :=
          (countAlts urgencyAlts (jsToLower (title ++ " " ++ description)) : ℚ) / 10
        grammarScore :=
          (detectGrammarIssues (jsToLower (title ++ " " ++ description)) : ℚ) / 20 } := by
  unfold analyzeJobText
  simp only [patStep_foldl]
  by_cases hu : countAlts urgencyAlts (jsToLower (title ++ " " ++ description)) > 2 <;>
    by_cases hg : detectGrammarIssues (jsToLower (title ++ " " ++ description)) > 3 <;>
      simp only [hu, hg, if_true, if_false, List.enum] <;>
      refine TextAnalysis.mk.injEq .. ▸ ⟨?_, ?_, rfl, rfl⟩ <;>
      simp [length_filter_enumFrom, List.append_assoc, jsMin_eq_min]

/-! ## C10 — determineJobLevel tier order -/

/-- C10: `determineJobLevel` tries the keyword sets in the fixed order
senior, entry-level, executive, returning at the first match, so a title
with a senior keyword is classified senior even when it also matches the
executive set ("Senior Vice President" matches both, and is senior), and
mid-level is returned exactly when no keyword set matches. -/
theorem C10_determineJobLevel :
    (∀ title : String,
      (determineJobLevel title = .senior ↔ seniorKw (jsToLower title) = true) ∧
      (determineJobLevel title = .entry ↔
        (seniorKw (jsToLower title) = false ∧ entryKw (jsToLower title) = true)) ∧
      (determineJobLevel title = .executive ↔
        (seniorKw (jsToLower title) = false ∧ entryKw (jsToLower title) = false ∧
          execKw (jsToLower title) = true)) ∧
      (determineJobLevel title = .mid ↔
        (seniorKw (jsToLower title) = false ∧ entryKw (jsToLower title) = false ∧
          execKw (jsToLower title) = false))) ∧
    determineJobLevel "Senior Vice President" = .senior ∧
    execKw (jsToLower "Senior Vice President") = true := by
  refine ⟨fun title => ?_, by decide, by decide⟩
  unfold determineJobLevel
  by_cases h1 : seniorKw (jsToLower title) <;>
    by_cases h2 : entryKw (jsToLower title) <;>
    by_cases h3 : execKw (jsToLower title) <;>
    simp [h1, h2, h3]

/-! ## More helper lemmas -/

/-- `x || 0` on a JS number is `x` itself. -/
theorem jsNumOr_zero (x : ℚ) : jsNumOr x 0 = x := by
  unfold jsNumOr
  split <;> simp_all

/-- For a non-negative argument, `Math.min(·, 1)` and the `[0,1]` clamp
coincide. -/
theorem jsMin_one_eq_clamp01 (x : ℚ) (h : 0 ≤ x) : jsMin x 1 = clamp01 x := by
  unfold jsMin clamp01
  split_ifs <;> linarith

/-- The composite risk as a single weighted sum under `Math.min(·, 1)`. -/
theorem calculateCompositeRisk_closed (t : TextAnalysis) (c : CompanyAnalysis)
    (sal : SalaryAnalysis) (ai : AIAnalysis) :
    calculateCompositeRisk t c sal ai =
      jsMin (t.score * 0.3 + (if c.verified then 0 else 0.4 * 0.25) +
        (if sal.realistic then 0 else 0.6 * 0.2) + ai.riskScore * 0.25) 1 := by
  unfold calculateCompositeRisk
  simp only [jsNumOr_zero]
  rcases hc : c.verified <;> rcases hs : sal.realistic <;>
    simp only [hc, hs, if_true, if_false, Bool.false_eq_true] <;> ring_nf

/-- The text score is clamped into `[0,1]`. -/
theorem analyzeJobText_score_bounds (t d : String) :
    0 ≤ (analyzeJobText t d).score ∧ (analyzeJobText t d).score ≤ 1 := by
  unfold analyzeJobText
  simp only [patStep_foldl]
  have hc : (0 : ℚ) ≤
      (((suspiciousPatterns.enum).filter
        (fun ip => reTest ip.2 (jsToLower (t ++ " " ++ d)))).length : ℚ) :=
    Nat.cast_nonneg _
  unfold jsMin
  split_ifs <;> constructor <;> linarith

/-- The company-verification confidence is in `[0,1]` whenever any cached
value is. -/
theorem verifyCompany_conf_bounds (cn : Option String)
    (g : Except String (Option CompanyAnalysis)) (s : Except String Unit)
    (hg : wfCacheGet g) :
    0 ≤ (verifyCompany cn g s).confidence ∧
      (verifyCompany cn g s).confidence ≤ 1 := by
  unfold verifyCompany
  rcases cn with _ | name
  · norm_num
  · by_cases hn : name = ""
    · simp only [hn, if_true]
      norm_num
    · simp only [hn, if_false]
      rcases g with e | ov
      · norm_num
      · rcases ov with _ | v
        · rcases s with e | u
          · norm_num
          · dsimp only
            unfold computeVerification
            dsimp only
            split_ifs <;> norm_num
        · dsimp only
          exact hg v rfl

/-- The salary-plausibility confidence is in `[0,1]`. -/
theorem analyzeSalary_conf_bounds (st : Option String) (t : String) :
    0 ≤ (analyzeSalary st t).confidence ∧ (analyzeSalary st t).confidence ≤ 1 := by
  unfold analyzeSalary
  rcases st with _ | s
  · norm_num
  · dsimp only
    split_ifs <;> norm_num

/-- For a well-formed external outcome, the adapter riskScore and confidence
are in `[0,1]`. -/
theorem performAIAnalysis_bounds (ext : ExtOutcome) (h : wfExt ext) :
    (0 ≤ (performAIAnalysis ext).riskScore ∧ (performAIAnalysis ext).riskScore ≤ 1) ∧
    (0 ≤ (performAIAnalysis ext).confidence ∧ (performAIAnalysis ext).confidence ≤ 1) := by
  rcases ext with msg | ⟨rs, c, rsn⟩
  · unfold performAIAnalysis
    norm_num
  · obtain ⟨h1, h2⟩ := h
    unfold performAIAnalysis jsOrQ
    constructor
    · rcases rs with _ | q
      · norm_num
      · dsimp only
        split_ifs with hq
        · norm_num
        · exact h1 q rfl
    · rcases c with _ | q
      · norm_num
      · dsimp only
        split_ifs with hq
        · norm_num
        · exact h2 q rfl

/-- A pattern-analyzer evidence label never carries the external-classifier
flag marker. -/
theorem not_ia_patron (x : String) :
    jsStartsWith "IA: " ("Patrón sospechoso " ++ x) = false := rfl

/-- Every evidence string the Pattern Analyzer can emit fails the
external-flag marker test. -/
theorem analyzeJobText_flags_not_ia (t d : String) :
    ∀ f ∈ (analyzeJobText t d).matchedPatterns, jsStartsWith "IA: " f = false := by
  unfold analyzeJobText
  simp only [patStep_foldl, List.nil_append]
  intro f hf
  split_ifs at hf <;>
    simp only [List.mem_append, List.mem_map, List.mem_singleton] at hf
  · rcases hf with (⟨ip, -, rfl⟩ | rfl) | rfl
    · exact not_ia_patron _
    · rfl
    · rfl
  · rcases hf with ⟨ip, -, rfl⟩ | rfl
    · exact not_ia_patron _
    · rfl
  · rcases hf with ⟨ip, -, rfl⟩ | rfl
    · exact not_ia_patron _
    · rfl
  · rcases hf with ⟨ip, -, rfl⟩
    exact not_ia_patron _

/-! ## C1 — composite risk formula -/

/-- C1 (counterexample): the claim says the orchestrator's risk equals the
weighted sum clamped to `[0,1]`, but the source only applies
`Math.min(·, 1)`: a malformed external response carrying `riskScore: -4`
drives the returned risk to `-1`, while the clamped formula value is `0`. -/
theorem C1_composite_risk_counterexample :
    (analyzeJob ⟨"Engineer", "great role", some "Acme Inc.", none, none, none,
        none, some "job-1"⟩ (.ok none) (.ok ())
        (.parsed (some (-4)) none none) 0).risk ≠
      clamp01 ((analyzeJobText "Engineer" "great role").score * 0.3 +
        (if (verifyCompany (some "Acme Inc.") (.ok none) (.ok ())).verified
          then 0 else 0.4 * 0.25) +
        (if (analyzeSalary none "Engineer").realistic then 0 else 0.6 * 0.2) +
        (performAIAnalysis (.parsed (some (-4)) none none)).riskScore * 0.25) := by
  with_unfolding_all decide

/-- C1 (amended): the composite risk returned by the orchestrator is the
weighted sum `textScore*0.30 + (0.4 if not verified)*… + …` clamped *above*
at 1 by `Math.min`; it equals the full `[0,1]` clamp whenever the external
risk score is non-negative (in particular for every well-formed classifier
response), but there is no lower clamp. -/
theorem C1_composite_risk_amended (job : JobPosting)
    (g : Except String (Option CompanyAnalysis)) (s : Except String Unit)
    (ext : ExtOutcome) (now : ℕ) :
    ((analyzeJob job g s ext now).risk =
      jsMin ((analyzeJobText job.title job.description).score * 0.3 +
        (if (verifyCompany job.company g s).verified then 0 else 0.4 * 0.25) +
        (if (analyzeSalary job.salary job.title).realistic then 0 else 0.6 * 0.2) +
        (performAIAnalysis ext).riskScore * 0.25) 1) ∧
    (0 ≤ (performAIAnalysis ext).riskScore →
      (analyzeJob job g s ext now).risk =
        clamp01 ((analyzeJobText job.title job.description).score * 0.3 +
          (if (verifyCompany job.company g s).verified then 0 else 0.4 * 0.25) +
          (if (analyzeSalary job.salary job.title).realistic then 0 else 0.6 * 0.2) +
          (performAIAnalysis ext).riskScore * 0.25)) := by
  have hrisk : (analyzeJob job g s ext now).risk =
      jsMin ((analyzeJobText job.title job.description).score * 0.3 +
        (if (verifyCompany job.company g s).verified then 0 else 0.4 * 0.25) +
        (if (analyzeSalary job.salary job.title).realistic then 0 else 0.6 * 0.2) +
        (performAIAnalysis ext).riskScore * 0.25) 1 := by
    show calculateCompositeRisk _ _ _ _ = _
    exact calculateCompositeRisk_closed _ _ _ _
  refine ⟨hrisk, fun hai => ?_⟩
  rw [hrisk]
  apply jsMin_one_eq_clamp01
  have h1 := (analyzeJobText_score_bounds job.title job.description).1
  have h2 : (0 : ℚ) ≤
      (if (verifyCompany job.company g s).verified then 0 else 0.4 * 0.25) := by
    split_ifs <;> norm_num
  have h3 : (0 : ℚ) ≤
      (if (analyzeSalary job.salary job.title).realistic then 0 else 0.6 * 0.2) := by
    split_ifs <;> norm_num
  nlinarith

/-- C1 (witness for the amended theorem): at a posting with a verified
company, no salary and a failed classifier the risk equals the clamped
formula. -/
theorem C1_composite_risk_amended_witness :
    (analyzeJob ⟨"Engineer", "great role", some "Acme Inc.", none, none, none,
        none, some "job-1"⟩ (.ok none) (.ok ()) (.failure "down") 0).risk =
      clamp01 ((analyzeJobText "Engineer" "great role").score * 0.3 +
        (if (verifyCompany (some "Acme Inc.") (.ok none) (.ok ())).verified
          then 0 else 0.4 * 0.25) +
        (if (analyzeSalary none "Engineer").realistic then 0 else 0.6 * 0.2) +
        (performAIAnalysis (.failure "down")).riskScore * 0.25) :=
  (C1_composite_risk_amended ⟨"Engineer", "great role", some "Acme Inc.", none,
      none, none, none, some "job-1"⟩ (.ok none) (.ok ()) (.failure "down") 0).2
    (by with_unfolding_all decide)

/-! ## C3 — [0,1] invariants -/

/-- C3 (counterexample): the external-classifier response is parsed without
range checks, so a response carrying `confidence: 2` flows into the
`AnalysisResult` unchanged: the reported confidence is 2, outside `[0,1]`. -/
theorem C3_bounds_counterexample :
    (analyzeJob ⟨"Engineer", "great role", some "Acme Inc.", none, none, none,
        none, some "job-1"⟩ (.ok none) (.ok ())
        (.parsed none (some 2) none) 0).confidence = 2 ∧
    ¬ ((analyzeJob ⟨"Engineer", "great role", some "Acme Inc.", none, none,
        none, none, some "job-1"⟩ (.ok none) (.ok ())
        (.parsed none (some 2) none) 0).confidence ≤ 1) := by
  with_unfolding_all decide

/-- C3 (amended): provided every numeric field of the external-classifier
response lies in `[0,1]` (or the call failed) and any cached company verdict
is in range, the result's risk and confidence and every sub-signal score and
confidence lie in `[0,1]`; an out-of-range external response escapes the
invariant (there is no clamping of parsed values). -/
theorem C3_bounds_amended (job : JobPosting)
    (g : Except String (Option CompanyAnalysis)) (s : Except String Unit)
    (ext : ExtOutcome) (now : ℕ) (hext : wfExt ext) (hg : wfCacheGet g) :
    (0 ≤ (analyzeJob job g s ext now).risk ∧
      (analyzeJob job g s ext now).risk ≤ 1) ∧
    (0 ≤ (analyzeJob job g s ext now).confidence ∧
      (analyzeJob job g s ext now).confidence ≤ 1) ∧
    (0 ≤ (analyzeJobText job.title job.description).score ∧
      (analyzeJobText job.title job.description).score ≤ 1) ∧
    (0 ≤ (verifyCompany job.company g s).confidence ∧
      (verifyCompany job.company g s).confidence ≤ 1) ∧
    (0 ≤ (analyzeSalary job.salary job.title).confidence ∧
      (analyzeSalary job.salary job.title).confidence ≤ 1) ∧
    (0 ≤ (performAIAnalysis ext).riskScore ∧
      (performAIAnalysis ext).riskScore ≤ 1) ∧
    (0 ≤ (performAIAnalysis ext).confidence ∧
      (performAIAnalysis ext).confidence ≤ 1) := by
  have htext := analyzeJobText_score_bounds job.title job.description
  have hcomp := verifyCompany_conf_bounds job.company g s hg
  have hsal := analyzeSalary_conf_bounds job.salary job.title
  have hai := performAIAnalysis_bounds ext hext
  refine ⟨?_, ?_, htext, hcomp, hsal, hai.1, hai.2⟩
  · have hrisk : (analyzeJob job g s ext now).risk =
        jsMin ((analyzeJobText job.title job.description).score * 0.3 +
          (if (verifyCompany job.company g s).verified then 0 else 0.4 * 0.25) +
          (if (analyzeSalary job.salary job.title).realistic then 0 else 0.6 * 0.2) +
          (performAIAnalysis ext).riskScore * 0.25) 1 := by
      show calculateCompositeRisk _ _ _ _ = _
      exact calculateCompositeRisk_closed _ _ _ _
    rw [hrisk]
    have h2 : (0 : ℚ) ≤
        (if (verifyCompany job.company g s).verified then 0 else 0.4 * 0.25) := by
      split_ifs <;> norm_num
    have h3 : (0 : ℚ) ≤
        (if (analyzeSalary job.salary job.title).realistic then 0 else 0.6 * 0.2) := by
      split_ifs <;> norm_num
    have m1 : (0 : ℚ) ≤ (analyzeJobText job.title job.description).score * 0.3 :=
      mul_nonneg htext.1 (by norm_num)
    have m4 : (0 : ℚ) ≤ (performAIAnalysis ext).riskScore * 0.25 :=
      mul_nonneg hai.1.1 (by norm_num)
    unfold jsMin
    split_ifs with hle <;> constructor <;> linarith
  · have hconf : (analyzeJob job g s ext now).confidence =
        jsNumOr (performAIAnalysis ext).confidence 0.8 := rfl
    rw [hconf]
    unfold jsNumOr
    split_ifs with h0
    · constructor <;> norm_num
    · exact hai.2

/-- C3 (witness for the amended theorem): concrete bounds instance with a
failed classifier call and an empty cache. -/
theorem C3_bounds_amended_witness :
    (0 ≤ (analyzeJob ⟨"Engineer", "great role", some "Acme Inc.", none, none,
        none, none, some "job-1"⟩ (.ok none) (.ok ()) (.failure "down") 0).risk ∧
      (analyzeJob ⟨"Engineer", "great role", some "Acme Inc.", none, none,
        none, none, some "job-1"⟩ (.ok none) (.ok ()) (.failure "down") 0).risk ≤ 1) ∧
    (0 ≤ (analyzeJob ⟨"Engineer", "great role", some "Acme Inc.", none, none,
        none, none, some "job-1"⟩ (.ok none) (.ok ()) (.failure "down") 0).confidence ∧
      (analyzeJob ⟨"Engineer", "great role", some "Acme Inc.", none, none,
        none, none, some "job-1"⟩ (.ok none) (.ok ()) (.failure "down") 0).confidence ≤ 1) ∧
    (0 ≤ (analyzeJobText "Engineer" "great role").score ∧
      (analyzeJobText "Engineer" "great role").score ≤ 1) ∧
    (0 ≤ (verifyCompany (some "Acme Inc.") (.ok none) (.ok ())).confidence ∧
      (verifyCompany (some "Acme Inc.") (.ok none) (.ok ())).confidence ≤ 1) ∧
    (0 ≤ (analyzeSalary none "Engineer").confidence ∧
      (analyzeSalary none "Engineer").confidence ≤ 1) ∧
    (0 ≤ (performAIAnalysis (.failure "down")).riskScore ∧
      (performAIAnalysis (.failure "down")).riskScore ≤ 1) ∧
    (0 ≤ (performAIAnalysis (.failure "down")).confidence ∧
      (performAIAnalysis (.failure "down")).confidence ≤ 1) :=
  C3_bounds_amended ⟨"Engineer", "great role", some "Acme Inc.", none, none,
      none, none, some "job-1"⟩ (.ok none) (.ok ()) (.failure "down") 0
    trivial (by intro v h; simp at h)

/-! ## C4 — company verification on cache failure -/

/-- C4 (counterexample): the `catch` in `verifyCompany` wraps the whole
computation, so a failing cache `get` makes it return the fixed degraded
verdict `{verified: false, confidence: 0, error}` instead of the verdict a
working cache would produce (for "Acme Inc." that verdict is
`{verified: true, confidence: 0.7, isGeneric: false}`). -/
theorem C4_cache_error_counterexample :
    verifyCompany (some "Acme Inc.") (.error "cache down") (.ok ()) =
      { verified := false, confidence := 0, isGeneric := none,
        error := some "cache down" } ∧
    verifyCompany (some "Acme Inc.") (.ok none) (.ok ()) =
      { verified := true, confidence := 0.7, isGeneric := some false,
        error := none } ∧
    (verifyCompany (some "Acme Inc.") (.error "cache down") (.ok ())).verified ≠
      (verifyCompany (some "Acme Inc.") (.ok none) (.ok ())).verified ∧
    (verifyCompany (some "Acme Inc.") (.error "cache down") (.ok ())).confidence ≠
      (verifyCompany (some "Acme Inc.") (.ok none) (.ok ())).confidence := by
  with_unfolding_all decide

/-- C4 (amended): on a cache-access error (a failing `get`, or a failing
`setex` after the verdict was computed) `verifyCompany` does not throw, but
it returns the fixed degraded verdict
`{verified: false, confidence: 0, error: <cause>}`, discarding the computed
verdict; it does not return the fields a working cache would have produced. -/
theorem C4_cache_error_degraded (name e : String) (s : Except String Unit)
    (h : name ≠ "") :
    verifyCompany (some name) (.error e) s =
      { verified := false, confidence := 0, isGeneric := none,
        error := some e } ∧
    verifyCompany (some name) (.ok none) (.error e) =
      { verified := false, confidence := 0, isGeneric := none,
        error := some e } := by
  unfold verifyCompany
  simp [h]

/-- C4 (witness for the amended theorem). -/
theorem C4_cache_error_degraded_witness :
    verifyCompany (some "Acme Inc.") (.error "boom") (.ok ()) =
      { verified := false, confidence := 0, isGeneric := none,
        error := some "boom" } ∧
    verifyCompany (some "Acme Inc.") (.ok none) (.error "boom") =
      { verified := false, confidence := 0, isGeneric := none,
        error := some "boom" } :=
  C4_cache_error_degraded "Acme Inc." "boom" (.ok ()) (by decide)

/-! ## C5 — external-classifier adapter degradation -/

/-- C5 (counterexample): a response that parses as JSON but lacks the
expected fields (e.g. `{}`) is not mapped to the degraded result: the
adapter returns `confidence 0.5`, empty reasoning and no `error` field,
where the claim requires `{riskScore: 0, confidence: 0,
reasoning: <unavailable>, error: <cause>}`. -/
theorem C5_adapter_counterexample :
    performAIAnalysis (.parsed none none none) =
      { riskScore := 0, confidence := 0.5, reasoning := "",
        model := some "gpt-3.5-turbo", error := none } ∧
    (performAIAnalysis (.parsed none none none)).confidence ≠ 0 ∧
    (performAIAnalysis (.parsed none none none)).reasoning ≠
      "Error en análisis IA" ∧
    (performAIAnalysis (.parsed none none none)).error = none := by
  with_unfolding_all decide

/-- C5 (amended): the adapter never raises — it is total on every outcome.
On a transport error, timeout or unparseable response (anything the `try`
block throws on) it returns exactly the fixed degraded record
`{riskScore: 0, confidence: 0, reasoning: "Error en análisis IA"
(the source's "classification unavailable" message), error: <cause>}`; a
response that parses but misses fields instead gets the defaults
`riskScore 0 / confidence 0.5 / reasoning ""` with no error field — in all
cases a well-formed record reaches the orchestrator. -/
theorem C5_adapter_degraded :
    (∀ msg, performAIAnalysis (.failure msg) =
      { riskScore := 0, confidence := 0, reasoning := "Error en análisis IA",
        model := none, error := some msg }) ∧
    (∀ rs c rsn, performAIAnalysis (.parsed rs c rsn) =
      { riskScore := jsOrQ rs 0, confidence := jsOrQ c 0.5,
        reasoning := jsOrStr rsn "", model := some "gpt-3.5-turbo",
        error := none }) :=
  ⟨fun _ => rfl, fun _ _ _ => rfl⟩

/-! ## C7 — salary plausibility analyzer -/

/-- C7 (counterexample): `!salaryText` in JS is also true for the *empty*
string, so a present-but-empty salary text takes the "absent" branch and
returns confidence 0.5, while the claim (present text, no numeric
substring) requires confidence 0.3. -/
theorem C7_salary_counterexample :
    analyzeSalary (some "") "Engineer" =
      { realistic := true, confidence := 0.5, reason := none } ∧
    digitRuns "" = [] ∧
    (analyzeSalary (some "") "Engineer").confidence ≠ 0.3 := by
  with_unfolding_all decide

/-- C7 (amended): an absent *or empty* salary text yields
`realistic=true, confidence=0.5`; a non-empty text with no numeric substring
yields `realistic=true, confidence=0.3`; otherwise, with the maximum
extracted number as figure and the tier from the title: hourly phrasing with
figure > 100 at entry level gives `{false, 0.9, implausible hourly rate}`,
non-hourly figure above twice the tier maximum gives
`{false, 0.8, excessive annual salary}`, and everything else
`{true, 0.7}`. -/
theorem C7_salary_amended (s t : String) :
    analyzeSalary none t =
      { realistic := true, confidence := 0.5, reason := none } ∧
    analyzeSalary (some "") t =
      { realistic := true, confidence := 0.5, reason := none } ∧
    (s ≠ "" → digitRuns s = [] → analyzeSalary (some s) t =
      { realistic := true, confidence := 0.3, reason := none }) ∧
    (s ≠ "" → digitRuns s ≠ [] → analyzeSalary (some s) t =
      (if isHourlyTest s ∧ maxNat ((digitRuns s).map parseNatDigits) > 100 ∧
          determineJobLevel t = .entry then
        { realistic := false, confidence := 0.9,
          reason := some "Salario por hora irrealista" }
      else if ¬ isHourlyTest s ∧ maxNat ((digitRuns s).map parseNatDigits) >
          (salaryRanges (determineJobLevel t)).2 * 2 then
        { realistic := false, confidence := 0.8,
          reason := some "Salario anual excesivo" }
      else { realistic := true, confidence := 0.7, reason := none })) := by
  refine ⟨rfl, rfl, fun h1 h2 => ?_, fun h1 h2 => ?_⟩
  · unfold analyzeSalary
    simp [h1, h2]
  · unfold analyzeSalary
    rcases hH : isHourlyTest s <;>
      by_cases hM : maxNat ((digitRuns s).map parseNatDigits) > 100 <;>
      by_cases hL : determineJobLevel t = JobLevel.entry <;>
      by_cases hA : maxNat ((digitRuns s).map parseNatDigits) >
        (salaryRanges (determineJobLevel t)).2 * 2 <;>
      simp [h1, h2, hH, hM, hL, hA]

/-- C7 (witness for the amended theorem): the no-numbers branch at
"negotiable", and the implausible-hourly branch at "$500/hour" for an
entry-level title. -/
theorem C7_salary_amended_witness :
    analyzeSalary (some "negotiable") "Data Entry Clerk" =
      { realistic := true, confidence := 0.3, reason := none } ∧
    analyzeSalary (some "$500/hour") "Data Entry Clerk" =
      { realistic := false, confidence := 0.9,
        reason := some "Salario por hora irrealista" } := by
  constructor
  · exact (C7_salary_amended "negotiable" "Data Entry Clerk").2.2.1
      (by decide) (by decide)
  · have h := (C7_salary_amended "$500/hour" "Data Entry Clerk").2.2.2
      (by decide) (by decide)
    rw [h]
    with_unfolding_all decide

/-! ## C8 — result confidence source -/

/-- C8 (counterexample): when the classifier response parses but carries no
confidence field, the adapter substitutes its own default 0.5, and the
orchestrator keeps that 0.5 — it does not apply the claimed 0.8 default. -/
theorem C8_confidence_counterexample :
    (analyzeJob ⟨"Engineer", "great role", some "Acme Inc.", none, none, none,
        none, some "job-1"⟩ (.ok none) (.ok ())
        (.parsed (some 0.4) none (some "fine")) 0).confidence = 0.5 ∧
    (0.5 : ℚ) ≠ 0.8 := by
  with_unfolding_all decide

/-- C8 (amended): the result confidence is the classifier's confidence
whenever one parsed and it is non-zero; it is 0.5 (the adapter default) when
the response parsed but its confidence is absent or zero; and it is 0.8 (the
orchestrator default applied to the degraded record's confidence 0) when the
adapter failed. -/
theorem C8_confidence_amended (job : JobPosting)
    (g : Except String (Option CompanyAnalysis)) (s : Except String Unit)
    (now : ℕ) (msg : String) (rs : Option ℚ) (c : Option ℚ)
    (rsn : Option String) :
    ((analyzeJob job g s (.failure msg) now).confidence = 0.8) ∧
    (c = none ∨ c = some 0 →
      (analyzeJob job g s (.parsed rs c rsn) now).confidence = 0.5) ∧
    (∀ q, c = some q → q ≠ 0 →
      (analyzeJob job g s (.parsed rs c rsn) now).confidence = q) := by
  refine ⟨?_, fun hc => ?_, fun q hq hq0 => ?_⟩
  · show jsNumOr (performAIAnalysis (.failure msg)).confidence 0.8 = 0.8
    unfold performAIAnalysis jsNumOr
    norm_num
  · show jsNumOr (performAIAnalysis (.parsed rs c rsn)).confidence 0.8 = 0.5
    unfold performAIAnalysis jsNumOr jsOrQ
    rcases hc with rfl | rfl <;> norm_num
  · show jsNumOr (performAIAnalysis (.parsed rs c rsn)).confidence 0.8 = q
    subst hq
    unfold performAIAnalysis jsNumOr jsOrQ
    simp [hq0]

/-- C8 (witness for the amended theorem): a classifier response with
confidence 0.9 is passed through. -/
theorem C8_confidence_amended_witness :
    (analyzeJob ⟨"Engineer", "great role", some "Acme Inc.", none, none, none,
        none, some "job-1"⟩ (.ok none) (.ok ())
        (.parsed (some 0.4) (some 0.9) none) 0).confidence = 0.9 :=
  (C8_confidence_amended ⟨"Engineer", "great role", some "Acme Inc.", none,
      none, none, none, some "job-1"⟩ (.ok none) (.ok ()) 0 "unused"
      (some 0.4) (some 0.9) none).2.2 0.9 rfl (by norm_num)

/-! ## C9 — orchestrator behaviour under adapter failure -/

/-- C9 (counterexample): when the adapter fails, its degraded record carries
the non-empty reasoning "Error en análisis IA", and `generateFlags` turns
any non-empty reasoning into an external flag — so the flags list *does*
contain an external-classifier flag, contradicting the claimed empty
external evidence trail. -/
theorem C9_degradation_counterexample :
    "IA: Error en análisis IA" ∈
      (analyzeJob ⟨"Engineer", "great role", some "Acme Inc.", none, none,
        none, none, some "job-1"⟩ (.ok none) (.ok ())
        (.failure "timeout") 0).flags := by
  with_unfolding_all decide

/-- A salary-implausibility evidence string never carries the
external-classifier flag marker. -/
theorem not_ia_salario (x : String) :
    jsStartsWith "IA: " ("Salario irrealista: " ++ x) = false := rfl

/-- C9 (amended): if the adapter fails, the orchestrator still returns a
valid `AnalysisResult` in which the external classifier contributes 0 to the
composite risk (the risk is the weighted sum of the other three signals
alone, capped at 1); the flags list is not free of external flags, however:
it contains exactly one, the fixed degraded-reasoning flag
"IA: Error en análisis IA". -/
theorem C9_degradation_amended (job : JobPosting)
    (g : Except String (Option CompanyAnalysis)) (s : Except String Unit)
    (msg : String) (now : ℕ) :
    (analyzeJob job g s (.failure msg) now).risk =
      jsMin ((analyzeJobText job.title job.description).score * 0.3 +
        (if (verifyCompany job.company g s).verified then 0 else 0.4 * 0.25) +
        (if (analyzeSalary job.salary job.title).realistic then 0 else 0.6 * 0.2)) 1 ∧
    (analyzeJob job g s (.failure msg) now).flags.filter
      (fun f => jsStartsWith "IA: " f) = ["IA: Error en análisis IA"] := by
  constructor
  · show calculateCompositeRisk _ _ _ _ = _
    rw [calculateCompositeRisk_closed]
    have hai : (performAIAnalysis (.failure msg)).riskScore = 0 := rfl
    rw [hai]
    ring_nf
  · show (generateFlags _ _ _ _).filter _ = _
    unfold generateFlags
    simp only [List.filter_append]
    have h1 : (if (analyzeJobText job.title job.description).matchedPatterns.length > 0
        then (analyzeJobText job.title job.description).matchedPatterns
        else []).filter (fun f => jsStartsWith "IA: " f) = [] := by
      split_ifs
      · exact List.filter_eq_nil_iff.mpr (fun a ha => by
          simp [analyzeJobText_flags_not_ia job.title job.description a ha])
      · rfl
    have h2 : (if (verifyCompany job.company g s).isGeneric = some true
        then ["Nombre de empresa genérico o sospechoso"]
        else []).filter (fun f => jsStartsWith "IA: " f) = [] := by
      split_ifs <;> rfl
    have h3 : (if !(verifyCompany job.company g s).verified
        then ["Empresa no verificada en bases de datos"]
        else []).filter (fun f => jsStartsWith "IA: " f) = [] := by
      split_ifs <;> rfl
    have h4 : (if !(analyzeSalary job.salary job.title).realistic
        then ["Salario irrealista: " ++
          jsOrStr (analyzeSalary job.salary job.title).reason
            "fuera de rango esperado"]
        else []).filter (fun f => jsStartsWith "IA: " f) = [] := by
      split_ifs <;> rfl
    rw [h1, h2, h3, h4]
    rfl

/-! ## C2 — deduplication layer -/

/-- C2 (amended, hit behaviour): if the Recent Analysis Index holds a
record for the posting's fingerprint whose timestamp is within the last 24
hours, the handler returns that stored record verbatim (serialised as-is),
leaves the store unchanged, and does not run the orchestrator; hence any two
such hit calls return bit-identical responses. -/
theorem C2_dedup_hit_verbatim (job : JobPosting) (store : List StoredAnalysis)
    (g : Except String (Option CompanyAnalysis)) (s : Except String Unit)
    (ext : ExtOutcome) (now : ℕ) (doc : StoredAnalysis)
    (ht : job.title ≠ "") (hd : job.description ≠ "")
    (hfind : findRecent store (fingerprint job) now = some doc) :
    handleAnalyze job store g s ext now =
      some (storedToJDoc doc, store, false) := by
  unfold handleAnalyze
  rw [if_neg (by simp [ht, hd])]
  simp only [hfind]

/-- C2 (witness for the amended theorem): a stored record within the window
is returned verbatim without running the orchestrator. -/
theorem C2_dedup_hit_verbatim_witness :
    handleAnalyze ⟨"Engineer", "great role", some "Acme Inc.", none, none,
        none, none, some "job-1"⟩
      [⟨"job-1", some "Engineer", some "Acme Inc.", none, some "great role",
        none, none, none, 0.1, 0.8, ["Empresa no verificada en bases de datos"],
        ⟨0, false, true, []⟩, 1000000000, 0, 0⟩]
      (.ok none) (.ok ()) (.failure "down") 1003600000 =
      some (storedToJDoc ⟨"job-1", some "Engineer", some "Acme Inc.", none,
        some "great role", none, none, none, 0.1, 0.8,
        ["Empresa no verificada en bases de datos"], ⟨0, false, true, []⟩,
        1000000000, 0, 0⟩,
        [⟨"job-1", some "Engineer", some "Acme Inc.", none, some "great role",
          none, none, none, 0.1, 0.8, ["Empresa no verificada en bases de datos"],
          ⟨0, false, true, []⟩, 1000000000, 0, 0⟩], false) :=
  C2_dedup_hit_verbatim ⟨"Engineer", "great role", some "Acme Inc.", none,
      none, none, none, some "job-1"⟩
    [⟨"job-1", some "Engineer", some "Acme Inc.", none, some "great role",
      none, none, none, 0.1, 0.8, ["Empresa no verificada en bases de datos"],
      ⟨0, false, true, []⟩, 1000000000, 0, 0⟩]
    (.ok none) (.ok ()) (.failure "down") 1003600000
    ⟨"job-1", some "Engineer", some "Acme Inc.", none, some "great role",
      none, none, none, 0.1, 0.8, ["Empresa no verificada en bases de datos"],
      ⟨0, false, true, []⟩, 1000000000, 0, 0⟩
    (by decide) (by decide) (by rfl)

/-- C2 (counterexample): the first call (a miss) answers with the freshly
built `AnalysisResult` object (`risk`, `jobTitle`, ... fields), while the
second call within 24 hours (a hit) answers with the persisted document
(`jobId`, `riskScore`, `title`, `userReports`, ... fields) — the handler did
not recompute (`false` flag), but the two responses are not bit-identical,
because what is persisted is a re-mapped record, not the response object. -/
theorem C2_dedup_counterexample :
    (handleAnalyze ⟨"Engineer", "great role", some "Acme Inc.", none, none,
        none, none, some "job-1"⟩ [] (.ok none) (.ok ()) (.failure "down")
        1000000000).map (fun r => r.2.2) = some true ∧
    (handleAnalyze ⟨"Engineer", "great role", some "Acme Inc.", none, none,
        none, none, some "job-1"⟩
      ((handleAnalyze ⟨"Engineer", "great role", some "Acme Inc.", none, none,
          none, none, some "job-1"⟩ [] (.ok none) (.ok ()) (.failure "down")
          1000000000).elim [] (fun r => r.2.1))
      (.ok none) (.ok ()) (.failure "down") 1003600000).map
        (fun r => r.2.2) = some false ∧
    (handleAnalyze ⟨"Engineer", "great role", some "Acme Inc.", none, none,
        none, none, some "job-1"⟩ [] (.ok none) (.ok ()) (.failure "down")
        1000000000).map (fun r => r.1) ≠
      (handleAnalyze ⟨"Engineer", "great role", some "Acme Inc.", none, none,
          none, none, some "job-1"⟩
        ((handleAnalyze ⟨"Engineer", "great role", some "Acme Inc.", none,
            none, none, none, some "job-1"⟩ [] (.ok none) (.ok ())
            (.failure "down") 1000000000).elim [] (fun r => r.2.1))
        (.ok none) (.ok ()) (.failure "down") 1003600000).map (fun r => r.1) :=
  ⟨rfl, rfl, by decide⟩
